import Mathlib

/-!
Shallow embedding of `src/cbot.py` (a Telegram ↔ Cohere relay bot).

The core function `get_cohere_response` (lines 38-91) issues one HTTP POST
and converts every possible HTTP outcome into a user-facing string.  We
embed the JSON values that `response.json()` can produce, the Python
subscription/len/strip semantics used on them (including the exceptions
they raise), the status-code classification, and the exception handlers.
`handle_message` (lines 115-137) and the startup key check (lines 26-28)
are embedded as well.
-/

/-- JSON values as produced by `response.json()` (Python `json` module:
objects become dicts with string keys, arrays become lists, strings,
numbers, booleans, null).  Numbers are modelled as integers; no claim
depends on fractional values.  Objects are association lists; `json.loads`
yields unique keys, and lookup takes the first match. -/
inductive JsonVal where
  | null : JsonVal
  | bool (b : Bool) : JsonVal
  | num (n : Int) : JsonVal
  | str (s : String) : JsonVal
  | arr (xs : List JsonVal) : JsonVal
  | obj (fields : List (String × JsonVal)) : JsonVal

/-- Python exceptions that the result-extraction code of lines 69-72 can
raise; all of them are caught by `except Exception` (line 89). -/
inductive PyExc where
  | typeError : PyExc
  | keyError : PyExc
  | indexError : PyExc
  | attributeError : PyExc

/-- Dict lookup: first binding for the key (Python dicts from `json.loads`
have unique keys). -/
def lookupField (key : String) : List (String × JsonVal) → Option JsonVal
  | [] => none
  | (k, v) :: rest => if k == key then some v else lookupField key rest

/-- The characters stripped by Python `str.strip()` (the `str.isspace`
set): ASCII whitespace, the C1/latin-1 spaces and the Unicode space
separators. -/
def isPyWhitespace (c : Char) : Bool :=
  decide (c.toNat = 32 ∨ (9 ≤ c.toNat ∧ c.toNat ≤ 13) ∨ (28 ≤ c.toNat ∧ c.toNat ≤ 31) ∨
    c.toNat = 133 ∨ c.toNat = 160 ∨ c.toNat = 5760 ∨ (8192 ≤ c.toNat ∧ c.toNat ≤ 8202) ∨
    c.toNat = 8232 ∨ c.toNat = 8233 ∨ c.toNat = 8239 ∨ c.toNat = 8287 ∨ c.toNat = 12288)

/-- Python `s.strip()`: drop leading and trailing whitespace. -/
def pyStrip (s : String) : String :=
  String.mk (((s.data.dropWhile isPyWhitespace).reverse.dropWhile isPyWhitespace).reverse)

/-- Python `"generations" in result` (line 69).  Dict: key membership;
list: membership (a string equals only an equal string); string:
substring test; other types raise `TypeError` (not iterable). -/
def pyContains (v : JsonVal) (key : String) : Except PyExc Bool :=
  match v with
  | .obj fields => .ok (lookupField key fields).isSome
  | .arr xs => .ok (xs.any (fun x => match x with | .str s => s == key | _ => false))
  | .str s => .ok ((List.range (s.length + 1)).any
      (fun i => key.data.isPrefixOf (s.data.drop i)))
  | _ => .error .typeError

/-- Python `v[key]` with a string key.  Dict: lookup (`KeyError` when
missing); list and string subscription with a string key raise
`TypeError`; other values are not subscriptable (`TypeError`). -/
def pyGetItemStr (v : JsonVal) (key : String) : Except PyExc JsonVal :=
  match v with
  | .obj fields =>
    match lookupField key fields with
    | some x => .ok x
    | none => .error .keyError
  | _ => .error .typeError

/-- Python `len(v)` (line 69): defined for str, list and dict, `TypeError`
otherwise. -/
def pyLen (v : JsonVal) : Except PyExc Nat :=
  match v with
  | .str s => .ok s.length
  | .arr xs => .ok xs.length
  | .obj fields => .ok fields.length
  | _ => .error .typeError

/-- Python `v[0]` (line 70): list indexing (`IndexError` when empty),
string indexing yields a one-character string, dict lookup of the integer
key `0` in a string-keyed dict raises `KeyError`, anything else
`TypeError`. -/
def pyGetIdx0 (v : JsonVal) : Except PyExc JsonVal :=
  match v with
  | .arr [] => .error .indexError
  | .arr (x :: _) => .ok x
  | .str s =>
    match s.data with
    | [] => .error .indexError
    | c :: _ => .ok (.str (String.mk [c]))
  | .obj _ => .error .keyError
  | _ => .error .typeError

/-- Python `v.strip()` (line 70): only strings have `.strip`;
anything else raises `AttributeError`. -/
def pyStripVal (v : JsonVal) : Except PyExc String :=
  match v with
  | .str s => .ok (pyStrip s)
  | _ => .error .attributeError

/-- Line 60: message returned for HTTP 401. -/
def UNAUTHORIZED_MSG : String :=
  "❌ **API Key Error**: Your Cohere API key appears to be invalid or expired. Please check your API key in the .env file."

/-- Line 64: message returned for HTTP 429. -/
def RATE_LIMITED_MSG : String :=
  "⏳ **Rate Limited**: Too many requests. Please wait a moment and try again."

/-- Line 76: message returned when the 2xx body lacks a usable
`generations` list. -/
def MALFORMED_MSG : String :=
  "⚠️ Error: Cohere response is missing expected data."

/-- Line 80: message returned on `requests.exceptions.Timeout`. -/
def TIMEOUT_MSG : String :=
  "⏳ **Timeout Error**: Request took too long. Please try again."

/-- Line 83: message returned on `requests.exceptions.ConnectionError`. -/
def CONNECTION_MSG : String :=
  "🌐 **Connection Error**: Could not connect to Cohere API. Check your internet connection."

/-- Line 91: message returned by the catch-all `except Exception`. -/
def UNEXPECTED_MSG : String :=
  "⚠️ An unexpected error occurred while generating a response."

/-- The fixed head of the line-88 message. -/
def apiErrorTag : String := "⚠️ **API Error**: "

/-- Line 88: the f-string message embedding `str(req_err)` for any
`requests.exceptions.RequestException`. -/
def apiErrorMsg (detail : String) : String := apiErrorTag ++ detail

/-- Line 39: the fixed endpoint URL. -/
def cohereUrl : String := "https://api.cohere.ai/v1/generate"

/-- The message of the `requests.HTTPError` built by
`response.raise_for_status()`: "Client Error" for 4xx, "Server Error"
for 5xx, with status, reason and url embedded. -/
def httpErrorDetail (status : Nat) (reason : String) : String :=
  if status < 500 then
    toString status ++ " Client Error: " ++ reason ++ " for url: " ++ cohereUrl
  else
    toString status ++ " Server Error: " ++ reason ++ " for url: " ++ cohereUrl

/-- `response.raise_for_status()` (line 66): raises `requests.HTTPError`
exactly for status codes in [400, 600) — 4xx "Client Error",
5xx "Server Error" — and does nothing for every other status (1xx, 2xx
and 3xx all fall through). -/
def raise_for_status_detail (status : Nat) (reason : String) : Option String :=
  if 400 ≤ status ∧ status < 600 then some (httpErrorDetail status reason) else none

/-- Every way the `requests.post` call of line 53 (together with
`raise_for_status`/`response.json()`) can come out, as seen by the
`try`/`except` chain of lines 51-91. -/
inductive HttpOutcome where
  /-- An HTTP response arrived and its body parsed as JSON. -/
  | resp (status : Nat) (reason : String) (body : JsonVal) : HttpOutcome
  /-- An HTTP response arrived but its body is not valid JSON;
  `response.json()` raises `requests.exceptions.JSONDecodeError`
  (a `RequestException` since requests 2.27) whose `str` is `jsonErr`. -/
  | respBadJson (status : Nat) (reason : String) (jsonErr : String) : HttpOutcome
  /-- `requests.post` raised `requests.exceptions.Timeout`. -/
  | timeout : HttpOutcome
  /-- `requests.post` raised `requests.exceptions.ConnectionError`. -/
  | connectionError : HttpOutcome
  /-- `requests.post` raised some other `requests.exceptions.RequestException`
  (e.g. `TooManyRedirects`) with `str(req_err) = detail`. -/
  | requestError (detail : String) : HttpOutcome
  /-- Some exception that is not a `RequestException` was raised. -/
  | otherExc : HttpOutcome

/-- Lines 69-76: the result-extraction block run on the parsed 2xx body.
`.ok s` is the string the block returns (either the stripped text or
`MALFORMED_MSG`); `.error e` is the Python exception it raises, which the
`except Exception` handler of line 89 turns into `UNEXPECTED_MSG`.
Evaluation order follows the source: the `and` of line 69 is
short-circuiting, and each subscription can raise. -/
def successBranch (result : JsonVal) : Except PyExc String :=
  match pyContains result "generations" with
  | .error e => .error e
  | .ok false => .ok MALFORMED_MSG
  | .ok true =>
    match pyGetItemStr result "generations" with
    | .error e => .error e
    | .ok gens =>
      match pyLen gens with
      | .error e => .error e
      | .ok n =>
        if 0 < n then
          match pyGetIdx0 gens with
          | .error e => .error e
          | .ok g0 =>
            match pyGetItemStr g0 "text" with
            | .error e => .error e
            | .ok t =>
              match pyStripVal t with
              | .error e => .error e
              | .ok s => .ok s
        else .ok MALFORMED_MSG

/-- The string returned by the body of `get_cohere_response`
(lines 51-91) as a function of the HTTP outcome.  The status checks of
lines 57 and 62 run before `raise_for_status` (line 66), which runs
before `response.json()` (line 67); Python exceptions from the
extraction block land in `except Exception` (line 89) — `KeyError` etc.
are not `RequestException`s. -/
def get_cohere_response_result (outcome : HttpOutcome) : String :=
  match outcome with
  | .resp status reason body =>
    if status = 401 then UNAUTHORIZED_MSG
    else if status = 429 then RATE_LIMITED_MSG
    else
      match raise_for_status_detail status reason with
      | some d => apiErrorMsg d
      | none =>
        match successBranch body with
        | .ok s => s
        | .error _ => UNEXPECTED_MSG
  | .respBadJson status reason jsonErr =>
    if status = 401 then UNAUTHORIZED_MSG
    else if status = 429 then RATE_LIMITED_MSG
    else
      match raise_for_status_detail status reason with
      | some d => apiErrorMsg d
      | none => apiErrorMsg jsonErr
  | .timeout => TIMEOUT_MSG
  | .connectionError => CONNECTION_MSG
  | .requestError detail => apiErrorMsg detail
  | .otherExc => UNEXPECTED_MSG

/-- Lines 44-49: the JSON body of the outbound request. -/
structure GenerationRequest where
  model : String
  prompt : String
  max_tokens : Nat
  temperature : Rat

/-- Lines 40-43: the request headers. -/
def buildHeaders (apiKey : String) : List (String × String) :=
  [("Authorization", "Bearer " ++ apiKey), ("Content-Type", "application/json")]

/-- Lines 44-49: the request body built from the user's text. -/
def buildData (user_input : String) : GenerationRequest :=
  { model := "command", prompt := user_input, max_tokens := 150, temperature := (7 : Rat) / 10 }

/-- One `requests.post` call as issued on line 53: url, headers, JSON
body, timeout (seconds). -/
structure PostCall where
  url : String
  headers : List (String × String)
  body : GenerationRequest
  timeout : Nat

/-- The single POST of line 53. -/
def buildPost (user_input apiKey : String) : PostCall :=
  { url := cohereUrl, headers := buildHeaders apiKey,
    body := buildData user_input, timeout := 15 }

/-- `get_cohere_response` (lines 38-91) with its I/O made explicit: the
global `COHERE_API_KEY` is a parameter, the network is an oracle
(`outcome`), and the trace of POST calls issued is returned alongside
the result.  The source has exactly one `requests.post` call, executed
unconditionally at the top of the `try` block, with no loop around it. -/
def get_cohere_response_run (user_input apiKey : String) (outcome : HttpOutcome) :
    String × List PostCall :=
  (get_cohere_response_result outcome, [buildPost user_input apiKey])

/-- The string `get_cohere_response` returns. -/
def get_cohere_response (user_input apiKey : String) (outcome : HttpOutcome) : String :=
  (get_cohere_response_run user_input apiKey outcome).1

/-- Character at index `n` of a string (default `' '`): used to separate
the fixed messages from each other and from arbitrary-detail messages. -/
def nthChar (n : Nat) (s : String) : Char := s.data.getD n ' '

/-- The outcomes on which `get_cohere_response` returns the empty string:
a response that passes the 401/429/`raise_for_status` checks and whose
extraction block returns `""` (a generation whose text strips to
nothing). -/
def emptyResultOutcome (o : HttpOutcome) : Prop :=
  match o with
  | .resp status reason body =>
    status ≠ 401 ∧ status ≠ 429 ∧ raise_for_status_detail status reason = none ∧
      successBranch body = Except.ok ""
  | _ => False

/-- A Telegram chat (`update.message.chat`). -/
structure Chat where
  id : Int

/-- A Telegram text message (`update.message`).  The handler is registered
with `filters.TEXT`, so `text` is present on delivered messages. -/
structure Message where
  text : String
  chat : Chat

/-- A Telegram user (`update.effective_user`). -/
structure User where
  id : Int
  username : Option String

/-- An inbound update.  Both `message` and `effective_user` are optional
on the `telegram.Update` object. -/
structure Update where
  message : Option Message
  effective_user : Option User

/-- Python `x or "Unknown"` (line 120): the default replaces a falsy
value (`None` or the empty string). -/
def pyOrStr (v : Option String) (dflt : String) : String :=
  match v with
  | none => dflt
  | some s => if s == "" then dflt else s

/-- Line 136: the apology sent by the `except` branch of
`handle_message`. -/
def APOLOGY_MSG : String :=
  "⚠️ An error occurred while processing your message. Please try again."

/-- Outbound effects of `handle_message`: the typing indicator
(line 125) and text messages (lines 132 and 137). -/
inductive BotEvent where
  | chatAction (chatId : Int) (action : String) : BotEvent
  | message (chatId : Int) (text : String) : BotEvent

/-- An exception escaping `handle_message`: the `NameError` raised when
the `except` branch reads the unbound local `chat_id`, or the exception
of the line-137 send itself. -/
inductive RelayExc where
  | nameError : RelayExc
  | sendError : RelayExc

/-- Oracles for the awaited framework calls inside `handle_message` and
for the HTTP call made by `get_cohere_response`; `apiKey` is the global
`COHERE_API_KEY`. -/
structure RelayEnv where
  chatActionRaises : Bool
  sendResponseRaises : Bool
  apologyRaises : Bool
  cohereOutcome : HttpOutcome
  apiKey : String

/-- What one run of `handle_message` did: the events it emitted and the
exception escaping it, if any. -/
structure RelayResult where
  events : List BotEvent
  raised : Option RelayExc

/-- Lines 134-137: the `except Exception` branch.  It reads the local
`chat_id`; if the exception occurred before line 118 bound it, the read
itself raises `NameError` (so nothing is sent); otherwise it sends
`APOLOGY_MSG` to `chat_id`, and a failure of that send escapes. -/
def except_branch (chat_id : Option Int) (emitted : List BotEvent) (env : RelayEnv) :
    RelayResult :=
  match chat_id with
  | none => { events := emitted, raised := some .nameError }
  | some cid =>
    if env.apologyRaises then { events := emitted, raised := some .sendError }
    else { events := emitted ++ [.message cid APOLOGY_MSG], raised := none }

/-- `handle_message` (lines 115-137).  Line 117 (`update.message.text`)
raises `AttributeError` when `message` is `None` — before `chat_id` is
bound on line 118.  Line 119 (`update.effective_user.id`) raises when
`effective_user` is `None` — after `chat_id` is bound.  The typing
indicator (line 125) and the response send (line 132) may raise; every
exception lands in the `except` branch. -/
def handle_message (update : Update) (env : RelayEnv) : RelayResult :=
  match update.message with
  | none => except_branch none [] env
  | some msg =>
    let user_message := msg.text
    let chat_id := msg.chat.id
    match update.effective_user with
    | none => except_branch (some chat_id) [] env
    | some user =>
      let _username := pyOrStr user.username "Unknown"
      if env.chatActionRaises then except_branch (some chat_id) [] env
      else
        let emitted := [BotEvent.chatAction chat_id "typing"]
        let response := get_cohere_response user_message env.apiKey env.cohereOutcome
        if env.sendResponseRaises then except_branch (some chat_id) emitted env
        else { events := emitted ++ [.message chat_id response], raised := none }

/-- Line 27: the startup diagnostic. -/
def STARTUP_ERROR_MSG : String := "ERROR: Missing API keys! Please check your .env file."

/-- Python `not v` for an `os.getenv` result: `None` and `""` are falsy,
every other string is truthy. -/
def pyFalsyStr (v : Option String) : Bool :=
  match v with
  | none => true
  | some s => s == ""

/-- Lines 26-28: `some (msg, code)` when the process prints `msg` and
exits with status `code`; `none` when startup proceeds. -/
def startup_check (cohere_api_key telegram_bot_token : Option String) :
    Option (String × Nat) :=
  if pyFalsyStr cohere_api_key || pyFalsyStr telegram_bot_token then
    some (STARTUP_ERROR_MSG, 1)
  else none

example : get_cohere_response "hi" "k"
    (.resp 200 "OK" (.obj [("generations", .arr [.obj [("text", .str " Hello there ")]])]))
    = "Hello there" := by decide

example : get_cohere_response "hi" "k" (.resp 200 "OK" (.obj [("generations", .arr [])]))
    = MALFORMED_MSG := by decide

example : get_cohere_response "hi" "k" (.resp 200 "OK" (.obj [("generations", .arr [.obj []])]))
    = UNEXPECTED_MSG := by decide

example : get_cohere_response "hi" "k" (.resp 404 "Not Found" .null)
    = apiErrorMsg "404 Client Error: Not Found for url: https://api.cohere.ai/v1/generate" := by
  decide

theorem apiErrorMsg_ne_empty (d : String) : apiErrorMsg d ≠ "" := by
  intro h
  have h2 := congrArg (nthChar 0) h
  rw [show nthChar 0 (apiErrorMsg d) = '⚠' from rfl] at h2
  exact absurd h2 (by decide)

theorem apiErrorMsg_ne_unexpected (d : String) : apiErrorMsg d ≠ UNEXPECTED_MSG := by
  intro h
  have h2 := congrArg (nthChar 3) h
  rw [show nthChar 3 (apiErrorMsg d) = '*' from rfl] at h2
  exact absurd h2 (by decide)

theorem apiErrorMsg_ne_unauthorized (d : String) : apiErrorMsg d ≠ UNAUTHORIZED_MSG := by
  intro h
  have h2 := congrArg (nthChar 0) h
  rw [show nthChar 0 (apiErrorMsg d) = '⚠' from rfl] at h2
  exact absurd h2 (by decide)

theorem apiErrorMsg_ne_rate_limited (d : String) : apiErrorMsg d ≠ RATE_LIMITED_MSG := by
  intro h
  have h2 := congrArg (nthChar 0) h
  rw [show nthChar 0 (apiErrorMsg d) = '⚠' from rfl] at h2
  exact absurd h2 (by decide)

theorem apiErrorMsg_ne_malformed (d : String) : apiErrorMsg d ≠ MALFORMED_MSG := by
  intro h
  have h2 := congrArg (nthChar 3) h
  rw [show nthChar 3 (apiErrorMsg d) = '*' from rfl] at h2
  exact absurd h2 (by decide)

/-- Claim C9: `get_cohere_response` is deterministic — its result is a
pure function of the HTTP outcome alone; it does not depend on the
prompt or the API key (which only shape the outbound request), so two
invocations with the same prompt, key and HTTP outcome return the
identical string. -/
theorem get_cohere_response_deterministic (p p2 apiKey apiKey2 : String) (o : HttpOutcome) :
    get_cohere_response p apiKey o = get_cohere_response p2 apiKey2 o := rfl

/-- Claim C6: a single invocation of `get_cohere_response` issues exactly
one outbound POST (the line-53 call, with no retry loop and no cache),
so two invocations with the same prompt issue exactly two independent
calls. -/
theorem get_cohere_response_single_post (p apiKey : String) (o o2 : HttpOutcome) :
    (get_cohere_response_run p apiKey o).2 = [buildPost p apiKey] ∧
    (get_cohere_response_run p apiKey o).2.length = 1 ∧
    ((get_cohere_response_run p apiKey o).2 ++ (get_cohere_response_run p apiKey o2).2).length
      = 2 :=
  ⟨rfl, rfl, rfl⟩

/-- Claim C10: `get_cohere_response` never validates its prompt — for the
empty string exactly as for any other string it issues one POST whose
body carries that string verbatim in the `prompt` field. -/
theorem get_cohere_response_no_prompt_validation (p apiKey : String) (o : HttpOutcome) :
    (get_cohere_response_run p apiKey o).2 = [buildPost p apiKey] ∧
    (buildPost p apiKey).body.prompt = p ∧
    (get_cohere_response_run "" apiKey o).2 = [buildPost "" apiKey] ∧
    (buildPost "" apiKey).body.prompt = "" :=
  ⟨rfl, rfl, rfl, rfl⟩

/-- Claim C5 (amended): `requests.exceptions.Timeout` maps to the fixed
timeout message and `ConnectionError` to the fixed connection message;
but another `RequestException` raised during the call is caught by the
line-84 handler and yields the API-error message embedding `str(req_err)`
— only exceptions that are not `RequestException`s yield the fixed
generic message.  No exception escapes (the embedding is total). -/
theorem get_cohere_response_exception_messages (p apiKey d : String) :
    get_cohere_response p apiKey .timeout = TIMEOUT_MSG ∧
    get_cohere_response p apiKey .connectionError = CONNECTION_MSG ∧
    get_cohere_response p apiKey (.requestError d) = apiErrorMsg d ∧
    get_cohere_response p apiKey .otherExc = UNEXPECTED_MSG ∧
    apiErrorMsg d ≠ UNEXPECTED_MSG :=
  ⟨rfl, rfl, rfl, rfl, apiErrorMsg_ne_unexpected d⟩

/-- Claim C5 counterexample: a non-Timeout, non-ConnectionError
`RequestException` raised during the call (e.g. `TooManyRedirects`)
does NOT yield the fixed generic unexpected-error message — it yields
the API-error message embedding the exception text. -/
theorem get_cohere_response_request_exception_cex :
    get_cohere_response "p" "k" (.requestError "Exceeded 30 redirects.") =
      apiErrorMsg "Exceeded 30 redirects." ∧
    apiErrorMsg "Exceeded 30 redirects." ≠ UNEXPECTED_MSG :=
  ⟨rfl, by decide⟩

/-- Claim C8: startup exits with status 1 and a diagnostic when the
Cohere API key or the Telegram token is unset or empty, and proceeds
when both are non-empty. -/
theorem startup_check_missing_keys (ck tt : Option String) :
    ((ck = none ∨ ck = some "" ∨ tt = none ∨ tt = some "") →
      startup_check ck tt = some (STARTUP_ERROR_MSG, 1) ∧ (1 : Nat) ≠ 0) ∧
    (∀ cs ts : String, ck = some cs → cs ≠ "" → tt = some ts → ts ≠ "" →
      startup_check ck tt = none) := by
  constructor
  · rintro (rfl | rfl | rfl | rfl) <;> exact ⟨by simp [startup_check, pyFalsyStr], by decide⟩
  · intro cs ts hc hcs ht hts
    subst hc; subst ht
    simp [startup_check, pyFalsyStr, hcs, hts]

/-- Claim C8 witness. -/
theorem startup_check_missing_keys_witness :
    startup_check none (some "t") = some (STARTUP_ERROR_MSG, 1) ∧
    startup_check (some "a") (some "b") = none :=
  ⟨((startup_check_missing_keys none (some "t")).1 (Or.inl rfl)).1,
   (startup_check_missing_keys (some "a") (some "b")).2 "a" "b" rfl (by decide) rfl
     (by decide)⟩

/-- Claim C2: for every 2xx response whose JSON body is an object with a
non-empty `generations` array whose first element is an object carrying a
string `text` field, `get_cohere_response` returns that text with leading
and trailing whitespace stripped (and is otherwise unchanged). -/
theorem get_cohere_response_success_trims
    (p apiKey reason : String) (status : Nat)
    (fs gf : List (String × JsonVal)) (rest : List JsonVal) (s : String)
    (hlo : 200 ≤ status) (hhi : status ≤ 299)
    (hgens : lookupField "generations" fs = some (.arr (.obj gf :: rest)))
    (htext : lookupField "text" gf = some (.str s)) :
    get_cohere_response p apiKey (.resp status reason (.obj fs)) = pyStrip s := by
  have h401 : ¬ status = 401 := by omega
  have h429 : ¬ status = 429 := by omega
  have hrfs : raise_for_status_detail status reason = none := by
    unfold raise_for_status_detail
    rw [if_neg (by omega)]
  have hsucc : successBranch (.obj fs) = .ok (pyStrip s) := by
    simp [successBranch, pyContains, pyGetItemStr, pyLen, pyGetIdx0, pyStripVal, hgens, htext]
  simp [get_cohere_response, get_cohere_response_run, get_cohere_response_result,
    h401, h429, hrfs, hsucc]

/-- Claim C2 witness: the spec's concrete example, evaluated through the
theorem. -/
theorem get_cohere_response_success_trims_witness :
    get_cohere_response "hi" "k"
      (.resp 200 "OK" (.obj [("generations", .arr [.obj [("text", .str " Hello there ")]])]))
      = "Hello there" := by
  have h := get_cohere_response_success_trims "hi" "k" "OK" 200
    [("generations", .arr [.obj [("text", .str " Hello there ")]])]
    [("text", .str " Hello there ")] [] " Hello there "
    (by decide) (by decide) rfl rfl
  exact h.trans (by decide)

/-- Claim C3 (amended): 401 yields the fixed unauthorized message, 429
the fixed rate-limited message, and every other status in [400, 600)
yields the message embedding the stringified `HTTPError`; the three
messages are pairwise distinct.  Statuses outside [400, 600) (e.g. 3xx)
do not raise in `raise_for_status` and fall through to body parsing
instead. -/
theorem get_cohere_response_status_classification
    (p apiKey reason : String) (body : JsonVal) (status : Nat) :
    (get_cohere_response p apiKey (.resp 401 reason body) = UNAUTHORIZED_MSG) ∧
    (get_cohere_response p apiKey (.resp 429 reason body) = RATE_LIMITED_MSG) ∧
    (400 ≤ status → status < 600 → status ≠ 401 → status ≠ 429 →
      get_cohere_response p apiKey (.resp status reason body) =
        apiErrorMsg (httpErrorDetail status reason)) ∧
    UNAUTHORIZED_MSG ≠ RATE_LIMITED_MSG ∧
    apiErrorMsg (httpErrorDetail status reason) ≠ UNAUTHORIZED_MSG ∧
    apiErrorMsg (httpErrorDetail status reason) ≠ RATE_LIMITED_MSG := by
  refine ⟨rfl, rfl, ?_, by decide, apiErrorMsg_ne_unauthorized _, apiErrorMsg_ne_rate_limited _⟩
  intro h1 h2 h3 h4
  have hrfs : raise_for_status_detail status reason = some (httpErrorDetail status reason) := by
    unfold raise_for_status_detail
    rw [if_pos ⟨h1, h2⟩]
  simp [get_cohere_response, get_cohere_response_run, get_cohere_response_result,
    h3, h4, hrfs]

/-- Claim C3 witness: a 404 yields the embedded-detail message. -/
theorem get_cohere_response_status_classification_witness :
    get_cohere_response "p" "k" (.resp 404 "Not Found" JsonVal.null) =
      apiErrorMsg (httpErrorDetail 404 "Not Found") :=
  (get_cohere_response_status_classification "p" "k" "Not Found" JsonVal.null 404).2.2.1
    (by decide) (by decide) (by decide) (by decide)

/-- Claim C3 counterexample: a 300 response — non-2xx and neither 401
nor 429 — is NOT mapped to a message embedding the error detail:
`raise_for_status` raises only for statuses in [400, 600), so the code
falls through to body extraction and returns the generated text "hi",
which is not `UNAUTHORIZED_MSG`, not `RATE_LIMITED_MSG`, and (its first
character not being the tag's '⚠') not of the form `apiErrorMsg d`. -/
theorem get_cohere_response_status_classification_cex :
    get_cohere_response "p" "k"
      (.resp 300 "Multiple Choices" (.obj [("generations", .arr [.obj [("text", .str "hi")]])]))
      = "hi" ∧
    nthChar 0 "hi" ≠ nthChar 0 (apiErrorMsg "") ∧
    "hi" ≠ UNAUTHORIZED_MSG ∧ "hi" ≠ RATE_LIMITED_MSG :=
  ⟨by decide, by decide, by decide, by decide⟩

/-- Claim C4 (amended): for a 2xx response whose JSON object body has no
`generations` key, or whose `generations` value is the empty array, the
fixed malformed-response message is returned; but when the first element
of a non-empty `generations` array is an object lacking the `text` key,
the subscription raises `KeyError`, which the catch-all handler maps to
the fixed generic unexpected-error message instead. -/
theorem get_cohere_response_malformed_cases
    (p apiKey reason : String) (status : Nat) (fs gf : List (String × JsonVal))
    (rest : List JsonVal) (hlo : 200 ≤ status) (hhi : status ≤ 299) :
    (lookupField "generations" fs = none →
      get_cohere_response p apiKey (.resp status reason (.obj fs)) = MALFORMED_MSG) ∧
    (lookupField "generations" fs = some (.arr []) →
      get_cohere_response p apiKey (.resp status reason (.obj fs)) = MALFORMED_MSG) ∧
    (lookupField "generations" fs = some (.arr (JsonVal.obj gf :: rest)) →
      lookupField "text" gf = none →
      get_cohere_response p apiKey (.resp status reason (.obj fs)) = UNEXPECTED_MSG) := by
  have h401 : ¬ status = 401 := by omega
  have h429 : ¬ status = 429 := by omega
  have hrfs : raise_for_status_detail status reason = none := by
    unfold raise_for_status_detail
    rw [if_neg (by omega)]
  refine ⟨?_, ?_, ?_⟩
  · intro hg
    have hsucc : successBranch (.obj fs) = .ok MALFORMED_MSG := by
      simp [successBranch, pyContains, hg]
    simp [get_cohere_response, get_cohere_response_run, get_cohere_response_result,
      h401, h429, hrfs, hsucc]
  · intro hg
    have hsucc : successBranch (.obj fs) = .ok MALFORMED_MSG := by
      simp [successBranch, pyContains, pyGetItemStr, pyLen, hg]
    simp [get_cohere_response, get_cohere_response_run, get_cohere_response_result,
      h401, h429, hrfs, hsucc]
  · intro hg ht
    have hsucc : successBranch (.obj fs) = .error PyExc.keyError := by
      simp [successBranch, pyContains, pyGetItemStr, pyLen, pyGetIdx0, hg, ht]
    simp [get_cohere_response, get_cohere_response_run, get_cohere_response_result,
      h401, h429, hrfs, hsucc]

/-- Claim C4 witness: missing `generations` key yields the malformed
message; first generation lacking `text` yields the generic message. -/
theorem get_cohere_response_malformed_cases_witness :
    get_cohere_response "p" "k" (.resp 200 "OK" (.obj [])) = MALFORMED_MSG ∧
    get_cohere_response "p" "k" (.resp 200 "OK" (.obj [("generations", .arr [.obj []])]))
      = UNEXPECTED_MSG :=
  ⟨(get_cohere_response_malformed_cases "p" "k" "OK" 200 [] [] []
      (by decide) (by decide)).1 rfl,
   (get_cohere_response_malformed_cases "p" "k" "OK" 200
      [("generations", .arr [.obj []])] [] [] (by decide) (by decide)).2.2 rfl rfl⟩

/-- Claim C4 counterexample: a 200 body whose first generation element
lacks the `text` field yields the generic unexpected-error message, not
the fixed malformed-response message the claim requires. -/
theorem get_cohere_response_missing_text_cex :
    get_cohere_response "p" "k" (.resp 200 "OK" (.obj [("generations", .arr [.obj []])]))
      = UNEXPECTED_MSG ∧ UNEXPECTED_MSG ≠ MALFORMED_MSG :=
  ⟨by decide, by decide⟩

/-- Claim C1 (amended): `get_cohere_response` never throws (the embedding
is a total function) and the only outcomes on which it returns the empty
string are responses that pass the 401/429/`raise_for_status` checks and
whose first generation text strips to nothing — every failure branch
returns a fixed non-empty message. -/
theorem get_cohere_response_empty_only_blank_success
    (p apiKey : String) (o : HttpOutcome)
    (h : get_cohere_response p apiKey o = "") : emptyResultOutcome o := by
  cases o with
  | timeout => exact absurd h ((by decide : TIMEOUT_MSG ≠ ""))
  | connectionError => exact absurd h ((by decide : CONNECTION_MSG ≠ ""))
  | otherExc => exact absurd h ((by decide : UNEXPECTED_MSG ≠ ""))
  | requestError d => exact absurd h (apiErrorMsg_ne_empty d)
  | respBadJson status reason jsonErr =>
    simp only [get_cohere_response, get_cohere_response_run, get_cohere_response_result] at h
    by_cases h1 : status = 401
    · rw [if_pos h1] at h
      exact absurd h (by decide)
    rw [if_neg h1] at h
    by_cases h2 : status = 429
    · rw [if_pos h2] at h
      exact absurd h (by decide)
    rw [if_neg h2] at h
    rcases hr : raise_for_status_detail status reason with _ | d
    · simp only [hr] at h
      exact absurd h (apiErrorMsg_ne_empty jsonErr)
    · simp only [hr] at h
      exact absurd h (apiErrorMsg_ne_empty d)
  | resp status reason body =>
    simp only [get_cohere_response, get_cohere_response_run, get_cohere_response_result] at h
    by_cases h1 : status = 401
    · rw [if_pos h1] at h
      exact absurd h (by decide)
    rw [if_neg h1] at h
    by_cases h2 : status = 429
    · rw [if_pos h2] at h
      exact absurd h (by decide)
    rw [if_neg h2] at h
    rcases hr : raise_for_status_detail status reason with _ | d
    · simp only [hr] at h
      rcases hs : successBranch body with e | s
      · simp only [hs] at h
        exact absurd h (by decide)
      · simp only [hs] at h
        exact ⟨h1, h2, hr, by rw [hs, h]⟩
    · simp only [hr] at h
      exact absurd h (apiErrorMsg_ne_empty d)

/-- Claim C1 witness: a 200 response whose generation text is a single
space makes `get_cohere_response` return the empty string, and the
theorem classifies that outcome. -/
theorem get_cohere_response_empty_only_blank_success_witness :
    emptyResultOutcome
      (.resp 200 "OK" (.obj [("generations", .arr [.obj [("text", .str " ")]])])) :=
  get_cohere_response_empty_only_blank_success "hi" "k" _ (by decide)

/-- Claim C1 counterexample: for the non-empty prompt "hi" there is an
HTTP outcome — a 200 response whose generation text is all whitespace —
on which `get_cohere_response` returns the empty string. -/
theorem get_cohere_response_nonempty_cex :
    ("hi" : String) ≠ "" ∧
    get_cohere_response "hi" "k"
      (.resp 200 "OK" (.obj [("generations", .arr [.obj [("text", .str " ")]])])) = "" :=
  ⟨by decide, by decide⟩

/-- Claim C7 (amended): when the inbound update carries a message, any
unexpected failure of the relay (missing `effective_user`, a failing
typing-indicator call, or a failing response send) makes the `except`
branch send the generic apology to the originating chat, provided that
send itself succeeds; but when the update has no message, the failure
happens before `chat_id` is bound and the `except` branch itself raises
`NameError` on the unbound local — no apology is sent. -/
theorem handle_message_apology_or_raise (u : Update) (env : RelayEnv) :
    (u.message = none →
      handle_message u env = { events := [], raised := some RelayExc.nameError }) ∧
    (∀ m : Message, u.message = some m →
      (u.effective_user = none ∨ env.chatActionRaises = true ∨ env.sendResponseRaises = true) →
      env.apologyRaises = false →
      (handle_message u env).raised = none ∧
      (handle_message u env).events.getLast? = some (BotEvent.message m.chat.id APOLOGY_MSG)) := by
  constructor
  · intro hm
    simp [handle_message, hm, except_branch]
  · intro m hm hfail hap
    rcases hfail with hu | hca | hsr
    · simp [handle_message, hm, hu, except_branch, hap]
    · cases hue : u.effective_user with
      | none => simp [handle_message, hm, hue, except_branch, hap]
      | some usr => simp [handle_message, hm, hue, hca, except_branch, hap]
    · cases hue : u.effective_user with
      | none => simp [handle_message, hm, hue, except_branch, hap]
      | some usr =>
        cases hca : env.chatActionRaises with
        | true => simp [handle_message, hm, hue, hca, except_branch, hap]
        | false => simp [handle_message, hm, hue, hca, hsr, except_branch, hap]

/-- Claim C7 witness: an update with a message but no `effective_user`
fails inside the `try` body and the apology is sent to the message's
chat. -/
theorem handle_message_apology_or_raise_witness :
    (handle_message
      { message := some { text := "hi", chat := { id := 5 } }, effective_user := none }
      { chatActionRaises := false, sendResponseRaises := false, apologyRaises := false,
        cohereOutcome := HttpOutcome.timeout, apiKey := "k" }).raised = none ∧
    (handle_message
      { message := some { text := "hi", chat := { id := 5 } }, effective_user := none }
      { chatActionRaises := false, sendResponseRaises := false, apologyRaises := false,
        cohereOutcome := HttpOutcome.timeout, apiKey := "k" }).events.getLast?
      = some (BotEvent.message 5 APOLOGY_MSG) :=
  (handle_message_apology_or_raise
    { message := some { text := "hi", chat := { id := 5 } }, effective_user := none }
    { chatActionRaises := false, sendResponseRaises := false, apologyRaises := false,
      cohereOutcome := HttpOutcome.timeout, apiKey := "k" }).2
    { text := "hi", chat := { id := 5 } } rfl (Or.inl rfl) rfl

/-- Claim C7 counterexample: a malformed update with no message at all —
the failure occurs at `update.message.text`, before `chat_id` is bound —
makes the error branch itself raise (`NameError` on the unbound
`chat_id`) and no apology is emitted. -/
theorem handle_message_unbound_chat_id_cex :
    handle_message { message := none, effective_user := some { id := 1, username := none } }
      { chatActionRaises := false, sendResponseRaises := false, apologyRaises := false,
        cohereOutcome := HttpOutcome.timeout, apiKey := "k" }
      = { events := [], raised := some RelayExc.nameError } := rfl
